import Mathlib

/-!
Shallow embedding of the Deepgram streaming transcriber
(`vocode/streaming/transcriber/deepgram_transcriber.py`) and proofs about
its endpointing policy, confidence accumulation, session supervisor,
sender cursor arithmetic and termination behaviour.

Python floats are modelled as exact rationals (ℚ); Python `dict` frames
are modelled as structures with the fields the code reads; a Python
expression that raises is modelled as `Option.none` / `Except.error`.
-/

namespace Vocode

/-- Audio encodings supported by the transcriber config
(`vocode.streaming.models.audio_encoding.AudioEncoding`). -/
inductive AudioEncoding where
  | LINEAR16
  | MULAW
deriving DecidableEq

/-- Endpointing configuration variants
(`vocode.streaming.models.transcriber`): `TimeEndpointingConfig` and
`PunctuationEndpointingConfig`, each carrying `time_cutoff_seconds`.
The absence of a config (the Default policy) is modelled by wrapping in
`Option` at use sites, as in the source where
`transcriber_config.endpointing_config` may be `None`. -/
inductive EndpointingConfig where
  | timeBased (time_cutoff_seconds : ℚ)
  | punctuationBased (time_cutoff_seconds : ℚ)
deriving DecidableEq

/-- The fields of `DeepgramTranscriberConfig` that the embedded code reads. -/
structure DeepgramTranscriberConfig where
  audio_encoding : AudioEncoding
  sampling_rate : ℕ
  downsampling : Option ℕ
  endpointing_config : Option EndpointingConfig
deriving DecidableEq

/-- A word-level record of a recognition frame: the code reads only its
`end` time (`word_end` here, since `end` is reserved in Lean). -/
structure Word where
  word_end : ℚ
deriving DecidableEq

/-- One entry of `channel.alternatives` in a Deepgram recognition frame. -/
structure Alternative where
  transcript : String
  confidence : ℚ
  words : List Word
deriving DecidableEq

/-- The `channel` object of a Deepgram recognition frame. -/
structure Channel where
  alternatives : List Alternative
deriving DecidableEq

/-- A parsed Deepgram recognition frame, with the fields the code reads:
`start`, `duration`, `is_final`, `speech_final`, `channel.alternatives`. -/
structure DeepgramResponse where
  start : ℚ
  duration : ℚ
  is_final : Bool
  speech_final : Bool
  channel : Channel
deriving DecidableEq

/-- `PUNCTUATION_TERMINATORS = [".", "!", "?"]` from the source (each
entry is a one-character string, compared against `transcript.strip()[-1]`,
so modelled as characters). -/
def PUNCTUATION_TERMINATORS : List Char := ['.', '!', '?']

/-- `NUM_RESTARTS = 5` from the source. -/
def NUM_RESTARTS : ℕ := 5

/-- Top alternative of a frame, used to phrase theorem statements; the
source always reads `data["channel"]["alternatives"][0]`. -/
def topAlt (d : DeepgramResponse) : Alternative :=
  d.channel.alternatives.headD { transcript := "", confidence := 0, words := [] }

/-- Transcript of the top alternative of a frame. -/
def topTranscript (d : DeepgramResponse) : String := (topAlt d).transcript

/-- Confidence of the top alternative of a frame. -/
def topConfidence (d : DeepgramResponse) : ℚ := (topAlt d).confidence

/-- Python `str.strip()`: drop whitespace from both ends (whitespace
modelled by `Char.isWhitespace`). -/
def pyStrip (s : String) : String :=
  String.mk (((s.data.dropWhile Char.isWhitespace).reverse.dropWhile
    Char.isWhitespace).reverse)

/-- `DeepgramTranscriber.is_speech_final`, embedded with the
endpointing config passed explicitly (the source reads it from
`self.transcriber_config.endpointing_config`).  Python truthiness of a
string is non-emptiness.  `Option.none` models a raised exception:
`alternatives[0]` on an empty list, or `transcript.strip()[-1]` on a
whitespace-only transcript (Python `IndexError`).  The final
`raise Exception("Endpointing config not supported")` of the source is
unreachable here because the config type is a closed sum. -/
def is_speech_final (endpointing_config : Option EndpointingConfig)
    (current_buffer : String) (d : DeepgramResponse) (time_silent : ℚ) :
    Option Bool :=
  match d.channel.alternatives.head? with
  | Option.none => Option.none
  | some top =>
    let transcript := top.transcript
    match endpointing_config with
    | Option.none =>
        some (decide (transcript ≠ "") && d.speech_final)
    | some (EndpointingConfig.timeBased cutoff) =>
        some (decide (transcript = "") && decide (current_buffer ≠ "") &&
          decide (cutoff < time_silent + d.duration))
    | some (EndpointingConfig.punctuationBased cutoff) =>
        let time_based := decide (transcript = "") &&
          decide (current_buffer ≠ "") &&
          decide (cutoff < time_silent + d.duration)
        if decide (transcript ≠ "") && d.speech_final then
          match (pyStrip transcript).data.getLast? with
          | Option.none => Option.none
          | some ch => some (decide (ch ∈ PUNCTUATION_TERMINATORS) || time_based)
        else some time_based

/-- `DeepgramTranscriber.calculate_time_silent`: `start + duration`
minus the end of the last word of the top alternative, or `duration`
when there are no words; `Option.none` models the `alternatives[0]`
access raising on an empty list. -/
def calculate_time_silent (d : DeepgramResponse) : Option ℚ :=
  match d.channel.alternatives.head? with
  | Option.none => Option.none
  | some top =>
    match top.words.getLast? with
    | some w => some (d.start + d.duration - w.word_end)
    | Option.none => some d.duration

/-- The mutable local state of the `receiver` loop inside
`DeepgramTranscriber.process`: `buffer`, `buffer_avg_confidence`,
`num_buffer_utterances`, `time_silent`, `transcript_cursor`. -/
structure ReceiverState where
  buffer : String
  buffer_avg_confidence : ℚ
  num_buffer_utterances : ℕ
  time_silent : ℚ
  transcript_cursor : ℚ
deriving DecidableEq

/-- Initial receiver state, as set at the top of `receiver`:
`buffer = ""`, `buffer_avg_confidence = 0`, `num_buffer_utterances = 1`,
`time_silent = 0`, `transcript_cursor = 0.0`. -/
def initReceiverState : ReceiverState :=
  { buffer := "", buffer_avg_confidence := 0, num_buffer_utterances := 1,
    time_silent := 0, transcript_cursor := 0 }

/-- A `Transcription` event emitted to the output queue.  Modelled from
the spec: the class lives in `base_transcriber` (not part of the given
source tree); the spec defines it as message text, confidence, is-final
flag. -/
structure Transcription where
  message : String
  confidence : ℚ
  is_final : Bool
deriving DecidableEq

/-- One iteration of the `receiver` loop body on a parsed recognition
frame that carries `is_final` (the sentinel / transport-error exits are
handled by the enclosing loop, not here).  Returns the updated receiver
state and the list of `Transcription` events enqueued on the output
queue by this iteration; `Option.none` models an uncaught exception
(from `is_speech_final` or the `alternatives[0]` accesses).  Mirrors the
source order: `speech_final` is computed against the *old* buffer, then
the buffer / weighted confidence / fragment count are updated for a
final frame with non-empty transcript and positive confidence, then the
emit branches run. -/
def receiverStep (endpointing_config : Option EndpointingConfig)
    (s : ReceiverState) (d : DeepgramResponse) :
    Option (ReceiverState × List Transcription) :=
  match is_speech_final endpointing_config s.buffer d s.time_silent with
  | Option.none => Option.none
  | some speech_final =>
    match d.channel.alternatives.head? with
    | Option.none => Option.none
    | some top_choice =>
      let transcript_cursor := d.start + d.duration
      let confidence := top_choice.confidence
      let accumulate : Bool :=
        decide (top_choice.transcript ≠ "") && decide (0 < confidence) && d.is_final
      let buffer1 :=
        if accumulate then s.buffer ++ " " ++ top_choice.transcript else s.buffer
      let conf1 :=
        if accumulate then
          if s.buffer_avg_confidence = 0 then confidence
          else (s.buffer_avg_confidence +
              confidence / (s.num_buffer_utterances : ℚ)) *
            ((s.num_buffer_utterances : ℚ) / ((s.num_buffer_utterances : ℚ) + 1))
        else s.buffer_avg_confidence
      let num1 :=
        if accumulate then s.num_buffer_utterances + 1 else s.num_buffer_utterances
      if speech_final then
        some ({ buffer := "", buffer_avg_confidence := 0,
                num_buffer_utterances := 1, time_silent := 0,
                transcript_cursor := transcript_cursor },
          [{ message := buffer1, confidence := conf1, is_final := true }])
      else if decide (top_choice.transcript ≠ "") && decide (0 < confidence) then
        match calculate_time_silent d with
        | Option.none => Option.none
        | some ts =>
          some ({ buffer := buffer1, buffer_avg_confidence := conf1,
                  num_buffer_utterances := num1, time_silent := ts,
                  transcript_cursor := transcript_cursor },
            [{ message := buffer1, confidence := confidence, is_final := false }])
      else
        some ({ buffer := buffer1, buffer_avg_confidence := conf1,
                num_buffer_utterances := num1,
                time_silent := s.time_silent + d.duration,
                transcript_cursor := transcript_cursor }, [])

/-- The `receiver` loop run over a list of parsed recognition frames,
threading the state and concatenating the emitted transcriptions in
order. -/
def receiverRun (endpointing_config : Option EndpointingConfig) :
    ReceiverState → List DeepgramResponse →
    Option (ReceiverState × List Transcription)
  | s, [] => some (s, [])
  | s, d :: rest =>
    match receiverStep endpointing_config s d with
    | Option.none => Option.none
    | some (s1, out1) =>
      match receiverRun endpointing_config s1 rest with
      | Option.none => Option.none
      | some (s2, out2) => some (s2, out1 ++ out2)

/-- An audio payload travelling through `send_audio` and the input
queue: either a Python `bytes` object (`raw`) or a NumPy `int16` array
(`samples`), as produced by `np.frombuffer(chunk, dtype=np.int16)`. -/
inductive AudioData where
  | raw (data : List (Fin 256))
  | samples (data : List Int)
deriving DecidableEq

/-- Python `len` on an audio payload: number of bytes for `bytes`,
number of array elements for a NumPy `int16` array. -/
def pyLen : AudioData → ℕ
  | AudioData.raw bs => bs.length
  | AudioData.samples xs => xs.length

/-- Signed 16-bit little-endian value of a byte pair, as
`np.frombuffer(-, dtype=np.int16)` decodes it. -/
def int16OfBytes (lo hi : Fin 256) : Int :=
  let v : ℕ := lo.val + 256 * hi.val
  if v < 32768 then (v : Int) else (v : Int) - 65536

/-- `np.frombuffer(chunk, dtype=np.int16)` on a byte string: pairs of
bytes decoded little-endian; `Option.none` models the `ValueError`
raised when the buffer length is not a multiple of the 2-byte item
size. -/
def np_frombuffer_int16 : List (Fin 256) → Option (List Int)
  | [] => some []
  | [_] => Option.none
  | lo :: hi :: rest =>
    match np_frombuffer_int16 rest with
    | Option.none => Option.none
    | some xs => some (int16OfBytes lo hi :: xs)

/-- `DeepgramTranscriber.send_audio`'s transformation of a chunk before
it is enqueued on the input queue.  For `LINEAR16` with no downsampling
the chunk is replaced by `np.frombuffer(chunk, dtype=np.int16)`; with
downsampling configured the source first calls the external
`audioop.ratecv` resampler, which is outside this repository and not
modelled (`Option.none`); `MULAW` chunks pass through unchanged.  The
`redis_client.publish` side channel is an external debug observer and
has no effect on the session state. -/
def send_audio (cfg : DeepgramTranscriberConfig) (chunk : AudioData) :
    Option AudioData :=
  match cfg.audio_encoding with
  | AudioEncoding.LINEAR16 =>
    match cfg.downsampling with
    | some _ => Option.none
    | Option.none =>
      match chunk with
      | AudioData.raw bs =>
        match np_frombuffer_int16 bs with
        | Option.none => Option.none
        | some xs => some (AudioData.samples xs)
      | AudioData.samples _ => Option.none
  | AudioEncoding.MULAW => some chunk

/-- The audio-time cursor after the `sender` loop has forwarded the
given queue of data items: each item advances the cursor by
`len(data) / (sampling_rate * num_channels * sample_width)` with
`num_channels = 1` and `sample_width = 2`, starting from
`audio_cursor = 0.0` as set at the top of `process`. -/
def senderCursorAfter (cfg : DeepgramTranscriberConfig)
    (queue : List AudioData) : ℚ :=
  queue.foldl
    (fun c d => c + (pyLen d : ℚ) / ((cfg.sampling_rate : ℚ) * 1 * 2)) 0

/-- Audio-time cursor produced by passing each chunk through
`send_audio` into the input queue and then letting the `sender` loop
forward all of them. -/
def pipelineCursor (cfg : DeepgramTranscriberConfig)
    (chunks : List AudioData) : Option ℚ :=
  match chunks.mapM (send_audio cfg) with
  | Option.none => Option.none
  | some queue => some (senderCursorAfter cfg queue)

/-- The session state touched by `DeepgramTranscriber.terminate`: the
`_ended` flag and the input queue, viewed as the FIFO list of control
messages enqueued so far. -/
structure SessionState where
  ended : Bool
  input_queue : List String
deriving DecidableEq

/-- The textual control frame `json.dumps({"type": "CloseStream"})`. -/
def terminate_msg : String := "\x7b\"type\": \"CloseStream\"\x7d"

/-- `DeepgramTranscriber.terminate`: enqueue the CloseStream control
message with `put_nowait` (FIFO append), then set `_ended = True`.  The
final `super().terminate()` notifies the base transcriber's shutdown
(external to this file's state) and is a no-op on the modelled state. -/
def terminate (s : SessionState) : SessionState :=
  { ended := true, input_queue := s.input_queue ++ [terminate_msg] }

/-- The outcome of one connection attempt made by
`DeepgramTranscriber.process`, abstracting what the transport and the
remote service do during that attempt. -/
inductive StreamEvent where
  | connectFailure
  | recvError
  | sendError
  | malformedFrame
  | cleanEnd
deriving DecidableEq

/-- How one call of `DeepgramTranscriber.process` finishes for each
attempt outcome, read off from the exception structure of the source:
`websockets.connect` raising propagates (nothing catches it);
`ws.recv` raising is caught by the receiver's `except Exception` and
breaks the loop, so `process` returns normally; `ws.send` raising in
the sender is uncaught and propagates through `asyncio.gather`;
`json.loads` raising on a malformed inbound frame is outside the
receiver's `try` and propagates through `asyncio.gather`; a clean
end-of-stream (sentinel frame without `is_final`) returns normally. -/
def process_outcome : StreamEvent → Except String Unit
  | StreamEvent.connectFailure => Except.error "websockets.connect raised"
  | StreamEvent.recvError => Except.ok ()
  | StreamEvent.sendError => Except.error "ws.send raised"
  | StreamEvent.malformedFrame => Except.error "json.loads raised"
  | StreamEvent.cleanEnd => Except.ok ()

/-- The `while not self._ended and restarts < NUM_RESTARTS` loop of
`DeepgramTranscriber._run_loop`, with the remaining budget
`NUM_RESTARTS - restarts` as structural fuel.  `events n` is the
outcome of the attempt started when `restarts = n`; `ended` is the
`_ended` flag (fixed here: no concurrent `terminate` during the run).
Returns the number of attempts started and the exception that escaped
the loop, if any; an attempt whose `process` raises is counted as
started but does not reach `restarts += 1` before the exception
propagates. -/
def run_loop_aux (events : ℕ → StreamEvent) (ended : Bool) :
    ℕ → ℕ → ℕ × Option String
  | 0, restarts => (restarts, Option.none)
  | fuel + 1, restarts =>
    if ended then (restarts, Option.none)
    else
      match process_outcome (events restarts) with
      | Except.error e => (restarts + 1, some e)
      | Except.ok _ => run_loop_aux events ended fuel (restarts + 1)

/-- `DeepgramTranscriber._run_loop`, started with `restarts = 0` and
the full `NUM_RESTARTS` budget. -/
def run_loop (events : ℕ → StreamEvent) (ended : Bool) : ℕ × Option String :=
  run_loop_aux events ended NUM_RESTARTS 0

/-- The confidence-update formula as the spec states it:
`new = (old + confidence / n) × (n / (n + 1))` with `n` the fragment
count before increment, and `new = confidence` when the current
weighted confidence is zero. -/
def specConfUpdate (old : ℚ) (n : ℕ) (c : ℚ) : ℚ :=
  if old = 0 then c
  else (old + c / (n : ℚ)) * ((n : ℚ) / ((n : ℚ) + 1))

/-- One spec-side accumulation step on (weighted confidence, fragment
count). -/
def specConfStep (p : ℚ × ℕ) (c : ℚ) : ℚ × ℕ :=
  (specConfUpdate p.1 p.2 c, p.2 + 1)

/-- The weighted confidence obtained by folding the spec formula over a
sequence of fragment confidences, starting from weighted confidence 0
and fragment count 1. -/
def specConfFold (cs : List ℚ) : ℚ :=
  (cs.foldl specConfStep ((0 : ℚ), (1 : ℕ))).1

/-- Concrete frames used in closed statements below. -/
def c9_frame : DeepgramResponse :=
  { start := 0, duration := 1, is_final := true, speech_final := true,
    channel := { alternatives :=
      [{ transcript := "hello world", confidence := 19/20, words := [] }] } }

/-- A frame whose top transcript is a single space:  non-empty (truthy in
Python) but whitespace-only. -/
def space_frame : DeepgramResponse :=
  { start := 0, duration := 0, is_final := true, speech_final := true,
    channel := { alternatives :=
      [{ transcript := " ", confidence := 1, words := [] }] } }

/-- A frame whose top transcript is two spaces: non-empty but
whitespace-only. -/
def whitespace_frame : DeepgramResponse :=
  { start := 0, duration := 0, is_final := true, speech_final := true,
    channel := { alternatives :=
      [{ transcript := "  ", confidence := 1, words := [] }] } }

/-- Claim C1 counterexample: calling `terminate` twice is not the same
as calling it once — starting from a fresh session (flag unset, empty
queue), the second call enqueues the CloseStream control message a
second time, so the enqueued control-message sequence differs. -/
theorem terminate_twice_counterexample :
    terminate (terminate { ended := false, input_queue := [] }) ≠
      terminate { ended := false, input_queue := [] } := by
  decide

/-- Claim C1 (amended): calling `terminate` twice sets the termination
flag idempotently (the flag after two calls equals the flag after one),
but the CloseStream control message is enqueued once per call — the
second call appends a second copy rather than being a no-op. -/
theorem terminate_twice_amended (s : SessionState) :
    terminate (terminate s) =
      { ended := true,
        input_queue := s.input_queue ++ [terminate_msg, terminate_msg] }
    ∧ (terminate (terminate s)).ended = (terminate s).ended := by
  simp [terminate]

/-- Witness for the amended C1 at a fresh session state. -/
theorem terminate_twice_amended_witness :
    terminate (terminate { ended := false, input_queue := [] }) =
      { ended := true,
        input_queue := ([] : List String) ++ [terminate_msg, terminate_msg] }
    ∧ (terminate (terminate { ended := false, input_queue := [] })).ended =
      (terminate { ended := false, input_queue := [] }).ended :=
  terminate_twice_amended { ended := false, input_queue := [] }

/-- Claim C9: under the Default policy, processing the single frame
with transcript "hello world", confidence 0.95 (= 19/20), is_final and
speech_final both set, starting from the initial (empty) receiver
state, emits exactly one final Transcription whose message is
" hello world" (leading space from the space-join) with confidence
0.95, and leaves the buffer empty, the weighted confidence zero, the
fragment count reset to 1 and the accumulated silence zero (the
transcript cursor advances to `start + duration = 1`). -/
theorem default_policy_end_to_end :
    receiverRun Option.none initReceiverState [c9_frame] =
      some ({ buffer := "", buffer_avg_confidence := 0,
              num_buffer_utterances := 1, time_silent := 0,
              transcript_cursor := 1 },
        [{ message := " hello world", confidence := 19/20, is_final := true }]) := by
  simp [receiverRun, receiverStep, is_speech_final, calculate_time_silent,
    c9_frame, initReceiverState, List.head?]

/-- Claim C10: the PunctuationBased policy is not total — on a frame
whose speech_final flag is set and whose top transcript is non-empty
but whitespace-only, `transcript.strip()[-1]` raises an `IndexError`
(modelled by `Option.none`) instead of returning a finalize decision. -/
theorem punctuation_policy_raises_on_whitespace :
    is_speech_final (some (EndpointingConfig.punctuationBased 5)) ""
        whitespace_frame 0 = Option.none
    ∧ whitespace_frame.speech_final = true
    ∧ topTranscript whitespace_frame ≠ "" := by
  refine ⟨?_, rfl, by simp [topTranscript, topAlt, whitespace_frame]⟩
  simp [is_speech_final, whitespace_frame, List.head?, pyStrip]

/-- Claim C6 counterexample: the PunctuationBased policy does not
return a finalize decision at every input — on a frame whose top
transcript is a single space (non-empty, whitespace-only) with
speech_final set, the evaluation raises (`Option.none`) although the
claimed biconditional would require the decision "no finalize"
(no last non-whitespace character exists and the time-based condition
fails). -/
theorem punctuation_policy_total_counterexample :
    is_speech_final (some (EndpointingConfig.punctuationBased 1)) "x"
      space_frame 0 = Option.none := by
  simp [is_speech_final, space_frame, List.head?, pyStrip]

/-- Claim C3 counterexample: a failure while opening the connection is
fatal to the run loop — `websockets.connect` raising propagates out of
`_run_loop` (nothing catches it), ending the session after one started
attempt with the exception surfacing, contrary to the claim that no
exception surfaces and the supervisor retries. -/
theorem run_loop_connect_failure_counterexample :
    run_loop (fun _ => StreamEvent.connectFailure) false =
      (1, some "websockets.connect raised") := by
  decide

/-- Claim C4: under the Default endpointing configuration (no
endpointing config present), for every buffer text, recognition frame
(with its top alternative) and accumulated silence, the policy returns
a decision, and it decides finalize exactly when the frame's top
transcript is non-empty and the frame's speech_final flag is set. -/
theorem default_policy_finalize_iff (current_buffer : String)
    (d : DeepgramResponse) (time_silent : ℚ) (alt : Alternative)
    (rest : List Alternative) (h : d.channel.alternatives = alt :: rest) :
    (is_speech_final Option.none current_buffer d time_silent).isSome = true
    ∧ (is_speech_final Option.none current_buffer d time_silent = some true ↔
        (alt.transcript ≠ "" ∧ d.speech_final = true)) := by
  constructor
  · simp [is_speech_final, h, List.head?]
  · simp [is_speech_final, h, List.head?]

/-- Top alternative used by the C4 witness. -/
def c4_alt : Alternative := { transcript := "hi", confidence := 1, words := [] }

/-- Frame used by the C4 witness. -/
def c4_frame : DeepgramResponse :=
  { start := 0, duration := 0, is_final := true, speech_final := true,
    channel := { alternatives := [c4_alt] } }

/-- Witness for C4 at a concrete frame with non-empty transcript and
speech_final set. -/
theorem default_policy_finalize_iff_witness :
    (is_speech_final Option.none "" c4_frame 0).isSome = true
    ∧ (is_speech_final Option.none "" c4_frame 0 = some true ↔
        (c4_alt.transcript ≠ "" ∧ c4_frame.speech_final = true)) :=
  default_policy_finalize_iff "" c4_frame 0 c4_alt [] rfl

/-- Claim C5: under the TimeBased endpointing configuration, for every
buffer text, recognition frame (with its top alternative) and
accumulated silence, the policy returns a decision, and it decides
finalize exactly when the frame's top transcript is empty, the buffer
is non-empty, and `accumulated_silence + frame.duration` is strictly
greater than the configured cutoff. -/
theorem time_based_policy_finalize_iff (cutoff : ℚ) (current_buffer : String)
    (d : DeepgramResponse) (time_silent : ℚ) (alt : Alternative)
    (rest : List Alternative) (h : d.channel.alternatives = alt :: rest) :
    (is_speech_final (some (EndpointingConfig.timeBased cutoff))
        current_buffer d time_silent).isSome = true
    ∧ (is_speech_final (some (EndpointingConfig.timeBased cutoff))
          current_buffer d time_silent = some true ↔
        (alt.transcript = "" ∧ current_buffer ≠ "" ∧
          cutoff < time_silent + d.duration)) := by
  constructor
  · simp [is_speech_final, h, List.head?]
  · simp [is_speech_final, h, List.head?, and_assoc]

/-- Top alternative used by the C5 witness: empty transcript (silence
frame). -/
def c5_alt : Alternative := { transcript := "", confidence := 0, words := [] }

/-- Frame used by the C5 witness: empty transcript, duration 2. -/
def c5_frame : DeepgramResponse :=
  { start := 0, duration := 2, is_final := false, speech_final := false,
    channel := { alternatives := [c5_alt] } }

/-- Witness for C5 at cutoff 1, non-empty buffer "x", silence 0 and a
silence frame of duration 2. -/
theorem time_based_policy_finalize_iff_witness :
    (is_speech_final (some (EndpointingConfig.timeBased 1)) "x" c5_frame 0).isSome
        = true
    ∧ (is_speech_final (some (EndpointingConfig.timeBased 1)) "x" c5_frame 0
          = some true ↔
        (c5_alt.transcript = "" ∧ "x" ≠ "" ∧ (1 : ℚ) < 0 + c5_frame.duration)) :=
  time_based_policy_finalize_iff 1 "x" c5_frame 0 c5_alt [] rfl

/-- Claim C6 (amended): under the PunctuationBased endpointing
configuration, for every buffer text, recognition frame (with its top
alternative) and accumulated silence — provided the top transcript is
empty, or speech_final is unset, or the transcript contains a
non-whitespace character (`pyStrip` of it is non-empty; otherwise the
evaluation raises, see the counterexample and C10) — the policy returns
a decision, and it decides finalize exactly when either (speech_final
is set, the transcript is non-empty, and its last non-whitespace
character is one of '.', '!', '?') or (the transcript is empty, the
buffer is non-empty, and `accumulated_silence + frame.duration` exceeds
the cutoff). -/
theorem punctuation_policy_finalize_iff (cutoff : ℚ) (current_buffer : String)
    (d : DeepgramResponse) (time_silent : ℚ) (alt : Alternative)
    (rest : List Alternative) (h : d.channel.alternatives = alt :: rest)
    (hw : alt.transcript = "" ∨ d.speech_final = false ∨
      pyStrip alt.transcript ≠ "") :
    (is_speech_final (some (EndpointingConfig.punctuationBased cutoff))
        current_buffer d time_silent).isSome = true
    ∧ (is_speech_final (some (EndpointingConfig.punctuationBased cutoff))
          current_buffer d time_silent = some true ↔
        ((d.speech_final = true ∧ alt.transcript ≠ "" ∧
            (∃ ch, (pyStrip alt.transcript).data.getLast? = some ch ∧
              ch ∈ PUNCTUATION_TERMINATORS))
          ∨ (alt.transcript = "" ∧ current_buffer ≠ "" ∧
              cutoff < time_silent + d.duration))) := by
  by_cases ht : alt.transcript = ""
  · constructor
    · simp [is_speech_final, h, List.head?, ht]
    · simp [is_speech_final, h, List.head?, ht, and_assoc]
  · cases hsf : d.speech_final with
    | false =>
      constructor
      · simp [is_speech_final, h, List.head?, ht, hsf]
      · simp [is_speech_final, h, List.head?, ht, hsf]
    | true =>
      have hstrip : pyStrip alt.transcript ≠ "" := by
        rcases hw with hw | hw | hw
        · exact absurd hw ht
        · rw [hw] at hsf; exact absurd hsf (by simp)
        · exact hw
      have hdata : (pyStrip alt.transcript).data ≠ [] := by
        intro hd
        exact hstrip (by cases hpy : pyStrip alt.transcript with
          | mk l => simpa [hpy] using congrArg String.mk hd)
      cases hgl : (pyStrip alt.transcript).data.getLast? with
      | none => exact absurd (List.getLast?_eq_none_iff.mp hgl) hdata
      | some ch =>
        constructor
        · simp [is_speech_final, h, List.head?, ht, hsf, hgl]
        · simp [is_speech_final, h, List.head?, ht, hsf, hgl]

/-- Top alternative used by the C6 witness: transcript ending in a
sentence terminator. -/
def c6_alt : Alternative := { transcript := "ok.", confidence := 1, words := [] }

/-- Frame used by the C6 witness. -/
def c6_frame : DeepgramResponse :=
  { start := 0, duration := 0, is_final := true, speech_final := true,
    channel := { alternatives := [c6_alt] } }

/-- Witness for the amended C6 at a concrete frame whose transcript
"ok." ends in '.'. -/
theorem punctuation_policy_finalize_iff_witness :
    (is_speech_final (some (EndpointingConfig.punctuationBased 1)) ""
        c6_frame 0).isSome = true
    ∧ (is_speech_final (some (EndpointingConfig.punctuationBased 1)) ""
          c6_frame 0 = some true ↔
        ((c6_frame.speech_final = true ∧ c6_alt.transcript ≠ "" ∧
            (∃ ch, (pyStrip c6_alt.transcript).data.getLast? = some ch ∧
              ch ∈ PUNCTUATION_TERMINATORS))
          ∨ (c6_alt.transcript = "" ∧ "" ≠ "" ∧
              (1 : ℚ) < 0 + c6_frame.duration))) :=
  punctuation_policy_finalize_iff 1 "" c6_frame 0 c6_alt [] rfl
    (Or.inr (Or.inr (by simp [pyStrip, c6_alt])))

/-- Decoding a byte string of length `2 * n` with
`np.frombuffer(-, dtype=np.int16)` succeeds and yields `n` array
elements. -/
lemma np_frombuffer_int16_length (n : ℕ) : ∀ bs : List (Fin 256),
    bs.length = 2 * n →
    ∃ xs, np_frombuffer_int16 bs = some xs ∧ xs.length = n := by
  induction n with
  | zero =>
    intro bs hb
    cases bs with
    | nil => exact ⟨[], rfl, rfl⟩
    | cons a t => simp at hb
  | succ k ih =>
    intro bs hb
    match bs with
    | [] => simp at hb
    | [a] => simp at hb; omega
    | a :: b :: t =>
      have ht : t.length = 2 * k := by simp at hb; omega
      obtain ⟨xs, hxs, hlen⟩ := ih t ht
      exact ⟨int16OfBytes a b :: xs, by simp [np_frombuffer_int16, hxs],
        by simp [hlen]⟩

/-- The configuration of claim C2: 16 kHz mono 16-bit linear PCM, no
downsampling. -/
def cfg16k : DeepgramTranscriberConfig :=
  { audio_encoding := AudioEncoding.LINEAR16, sampling_rate := 16000,
    downsampling := Option.none, endpointing_config := Option.none }

/-- Claim C2 evaluated on the code (code_bug): for any three chunks of
3200 bytes each at 16 kHz mono 16-bit linear PCM with no downsampling,
`send_audio` converts each chunk with `np.frombuffer(-, np.int16)`
into a 1600-element array before enqueueing it, so the sender's
`len(data)` is 1600 (elements) rather than 3200 (bytes) and the
audio-time cursor after all three sends is 0.15 s (3/20) — not the
0.3 s (3/10) that 0.1 s of audio per chunk would give and that the
cursor's stated meaning (seconds of audio handed to the transport)
requires. -/
theorem audio_cursor_three_chunks_bug (c1 c2 c3 : List (Fin 256))
    (h1 : c1.length = 3200) (h2 : c2.length = 3200) (h3 : c3.length = 3200) :
    ∃ d1 d2 d3,
      send_audio cfg16k (AudioData.raw c1) = some d1 ∧
      send_audio cfg16k (AudioData.raw c2) = some d2 ∧
      send_audio cfg16k (AudioData.raw c3) = some d3 ∧
      senderCursorAfter cfg16k [d1, d2, d3] = 3/20 ∧
      ((3 : ℚ)/20 ≠ 3/10) := by
  obtain ⟨x1, hx1, hl1⟩ := np_frombuffer_int16_length 1600 c1 (by omega)
  obtain ⟨x2, hx2, hl2⟩ := np_frombuffer_int16_length 1600 c2 (by omega)
  obtain ⟨x3, hx3, hl3⟩ := np_frombuffer_int16_length 1600 c3 (by omega)
  refine ⟨AudioData.samples x1, AudioData.samples x2, AudioData.samples x3,
    ?_, ?_, ?_, ?_, by norm_num⟩
  · simp [send_audio, cfg16k, hx1]
  · simp [send_audio, cfg16k, hx2]
  · simp [send_audio, cfg16k, hx3]
  · simp [senderCursorAfter, pyLen, cfg16k, hl1, hl2, hl3]
    norm_num

/-- Witness for C2's theorem at three concrete all-zero 3200-byte
chunks. -/
theorem audio_cursor_three_chunks_bug_witness :
    ∃ d1 d2 d3,
      send_audio cfg16k (AudioData.raw (List.replicate 3200 (0 : Fin 256)))
          = some d1 ∧
      send_audio cfg16k (AudioData.raw (List.replicate 3200 (0 : Fin 256)))
          = some d2 ∧
      send_audio cfg16k (AudioData.raw (List.replicate 3200 (0 : Fin 256)))
          = some d3 ∧
      senderCursorAfter cfg16k [d1, d2, d3] = 3/20 ∧
      ((3 : ℚ)/20 ≠ 3/10) :=
  audio_cursor_three_chunks_bug _ _ _ (by simp only [List.length_replicate])
    (by simp only [List.length_replicate]) (by simp only [List.length_replicate])

/-- A run of the supervisor loop in which every attempt completes
normally makes one attempt per unit of remaining budget and lets no
exception surface. -/
lemma run_loop_aux_ok (events : ℕ → StreamEvent)
    (h : ∀ n, process_outcome (events n) = Except.ok ()) :
    ∀ fuel restarts,
      run_loop_aux events false fuel restarts = (restarts + fuel, Option.none) := by
  intro fuel
  induction fuel with
  | zero => intro r; simp [run_loop_aux]
  | succ k ih =>
    intro r
    simp only [run_loop_aux, if_neg (by simp : ¬(false = true)), h r, ih (r + 1)]
    congr 1
    omega

/-- The supervisor loop never starts more attempts than its remaining
budget. -/
lemma run_loop_aux_fst_le (events : ℕ → StreamEvent) (ended : Bool) :
    ∀ fuel restarts,
      (run_loop_aux events ended fuel restarts).1 ≤ restarts + fuel := by
  intro fuel
  induction fuel with
  | zero => intro r; simp [run_loop_aux]
  | succ k ih =>
    intro r
    by_cases he : ended
    · simp [run_loop_aux, he]
    · simp only [run_loop_aux, if_neg he]
      cases hp : process_outcome (events r) with
      | error e => simp
      | ok _ =>
        calc (run_loop_aux events ended k (r + 1)).1
            ≤ (r + 1) + k := ih (r + 1)
          _ ≤ r + (k + 1) := by omega

/-- Claim C3 (amended): only a mid-stream receive error (caught by the
receiver's `except Exception`, ending the current duplex stream pair)
or a clean end-of-stream is non-fatal: when every attempt ends one of
those two ways, the supervisor retries up to its fixed budget of
`NUM_RESTARTS = 5` attempts and no exception surfaces out of the run
loop, even when the budget is exhausted.  A failure while opening the
connection, a sender-side send error, or an inbound message that cannot
be parsed is NOT handled: it raises out of the run loop (see the
counterexample). -/
theorem run_loop_recv_errors_nonfatal (events : ℕ → StreamEvent)
    (h : ∀ n, events n = StreamEvent.recvError ∨ events n = StreamEvent.cleanEnd) :
    run_loop events false = (NUM_RESTARTS, Option.none) := by
  have hok : ∀ n, process_outcome (events n) = Except.ok () := by
    intro n
    rcases h n with h1 | h1 <;> simp [h1, process_outcome]
  simp [run_loop, run_loop_aux_ok events hok NUM_RESTARTS 0]

/-- Witness for the amended C3: every attempt dies with a mid-stream
receive error; the loop makes exactly 5 attempts and returns without an
exception. -/
theorem run_loop_recv_errors_nonfatal_witness :
    run_loop (fun _ => StreamEvent.recvError) false = (NUM_RESTARTS, Option.none) :=
  run_loop_recv_errors_nonfatal (fun _ => StreamEvent.recvError)
    (fun _ => Or.inl rfl)

/-- Claim C8: the session supervisor never starts more than
`NUM_RESTARTS = 5` connection attempts; with the termination flag set
before the loop no attempt is started; and with the flag unset, 5
consecutive failed attempts (connection deaths that the receiver
catches, so `process` returns and the loop retries) exhaust the budget:
exactly 5 attempts are started and no 6th ever begins. -/
theorem restart_budget_bound (events : ℕ → StreamEvent) :
    (∀ ended, (run_loop events ended).1 ≤ NUM_RESTARTS)
    ∧ (run_loop events true).1 = 0
    ∧ ((∀ n, events n = StreamEvent.recvError) →
        (run_loop events false).1 = NUM_RESTARTS) := by
  refine ⟨fun ended => ?_, ?_, fun h => ?_⟩
  · simpa using run_loop_aux_fst_le events ended NUM_RESTARTS 0
  · rfl
  · have hok : ∀ n, process_outcome (events n) = Except.ok () := by
      intro n; simp [h n, process_outcome]
    simp [run_loop, run_loop_aux_ok events hok NUM_RESTARTS 0]

/-- Witness for C8 with every attempt failing by a mid-stream receive
error: exactly 5 attempts are started. -/
theorem restart_budget_bound_witness :
    (run_loop (fun _ => StreamEvent.recvError) false).1 = NUM_RESTARTS :=
  (restart_budget_bound (fun _ => StreamEvent.recvError)).2.2 (fun _ => rfl)

/-- The receiver state after accumulating one final fragment `alt` into
state `s` (frame `d`, recomputed silence `ts`), as produced by the
accumulation branch of the receiver loop. -/
def fragmentNext (s : ReceiverState) (alt : Alternative)
    (d : DeepgramResponse) (ts : ℚ) : ReceiverState :=
  { buffer := s.buffer ++ " " ++ alt.transcript,
    buffer_avg_confidence := specConfUpdate s.buffer_avg_confidence
      s.num_buffer_utterances alt.confidence,
    num_buffer_utterances := s.num_buffer_utterances + 1,
    time_silent := ts,
    transcript_cursor := d.start + d.duration }

/-- One receiver iteration on a final frame with non-empty transcript,
positive confidence and speech_final unset (Default policy, so no
finalize): the code's inline confidence update coincides with the
spec's `specConfUpdate` formula and the fragment count increments. -/
lemma receiverStep_final_fragment (s : ReceiverState) (d : DeepgramResponse)
    (alt : Alternative) (rest : List Alternative)
    (h : d.channel.alternatives = alt :: rest)
    (ht : alt.transcript ≠ "") (hc : 0 < alt.confidence)
    (hf : d.is_final = true) (hsf : d.speech_final = false) :
    ∃ ts, receiverStep Option.none s d =
      some (fragmentNext s alt d ts,
        [{ message := s.buffer ++ " " ++ alt.transcript,
           confidence := alt.confidence, is_final := false }]) := by
  obtain ⟨ts, hts⟩ : ∃ ts, calculate_time_silent d = some ts := by
    cases hw : alt.words.getLast? with
    | none => exact ⟨d.duration, by simp [calculate_time_silent, h, List.head?, hw]⟩
    | some w => exact ⟨d.start + d.duration - w.word_end,
        by simp [calculate_time_silent, h, List.head?, hw]⟩
  refine ⟨ts, ?_⟩
  simp [receiverStep, is_speech_final, h, List.head?, hts, ht, hc, hf, hsf,
    fragmentNext, specConfUpdate]

/-- Running the receiver over any list of qualifying fragment frames
folds the spec confidence formula over their confidences, starting from
the current (weighted confidence, fragment count). -/
lemma receiverRun_conf_general (frames : List DeepgramResponse) :
    ∀ s : ReceiverState,
      (∀ d ∈ frames, d.channel.alternatives ≠ [] ∧ topTranscript d ≠ "" ∧
        0 < topConfidence d ∧ d.is_final = true ∧ d.speech_final = false) →
      (receiverRun Option.none s frames).map
          (fun p => (p.1.buffer_avg_confidence, p.1.num_buffer_utterances)) =
        some ((frames.map topConfidence).foldl specConfStep
          (s.buffer_avg_confidence, s.num_buffer_utterances)) := by
  induction frames with
  | nil => intro s h; simp [receiverRun]
  | cons d rest ih =>
    intro s h
    obtain ⟨h1, h2, h3, h4, h5⟩ := h d (List.mem_cons_self d rest)
    obtain ⟨alt, tail, halt⟩ := List.exists_cons_of_ne_nil h1
    have hta : topAlt d = alt := by simp [topAlt, halt]
    have h2a : alt.transcript ≠ "" := by simpa [topTranscript, hta] using h2
    have h3a : 0 < alt.confidence := by simpa [topConfidence, hta] using h3
    obtain ⟨ts, hstep⟩ := receiverStep_final_fragment s d alt tail halt h2a h3a h4 h5
    have hrest := ih (fragmentNext s alt d ts)
      (fun d' hd' => h d' (List.mem_cons_of_mem d hd'))
    simp only [receiverRun, hstep, List.map_cons, List.foldl_cons]
    have hstep2 : specConfStep (s.buffer_avg_confidence, s.num_buffer_utterances)
        (topConfidence d) =
        ((fragmentNext s alt d ts).buffer_avg_confidence,
          (fragmentNext s alt d ts).num_buffer_utterances) := by
      simp [specConfStep, topConfidence, hta, fragmentNext]
    rw [hstep2]
    cases hrun : receiverRun Option.none (fragmentNext s alt d ts) rest with
    | none => rw [hrun] at hrest; simp at hrest
    | some p =>
      rw [hrun] at hrest
      simpa using hrest

/-- The fragment-count component of the spec fold increments once per
confidence in the sequence. -/
lemma specConfStep_foldl_snd (cs : List ℚ) :
    ∀ p : ℚ × ℕ, (cs.foldl specConfStep p).2 = p.2 + cs.length := by
  induction cs with
  | nil => intro p; simp
  | cons c t ih =>
    intro p
    rw [List.foldl_cons, ih]
    simp [specConfStep]
    omega

/-- Claim C7: for every sequence of final frames with non-empty top
transcript and positive confidence (and speech_final unset, so the
Default policy never finalizes in between), running the receiver from
the initial state yields a weighted confidence equal to folding the
spec formula `new = (old + c / n) * (n / (n + 1))` — with `new = c`
when the current weighted confidence is zero — over the sequence of
fragment confidences, and a fragment count of `1 + length`: the result
is a deterministic function of the confidence sequence alone. -/
theorem confidence_fold_deterministic (frames : List DeepgramResponse)
    (h : ∀ d ∈ frames, d.channel.alternatives ≠ [] ∧ topTranscript d ≠ "" ∧
      0 < topConfidence d ∧ d.is_final = true ∧ d.speech_final = false) :
    (receiverRun Option.none initReceiverState frames).map
        (fun p => (p.1.buffer_avg_confidence, p.1.num_buffer_utterances)) =
      some (specConfFold (frames.map topConfidence), 1 + frames.length) := by
  rw [receiverRun_conf_general frames initReceiverState h]
  congr 1
  refine Prod.ext rfl ?_
  rw [specConfStep_foldl_snd]
  simp [initReceiverState]

/-- A qualifying fragment frame carrying confidence `c`, used by the C7
witness. -/
def c7_frame (c : ℚ) : DeepgramResponse :=
  { start := 0, duration := 0, is_final := true, speech_final := false,
    channel := { alternatives :=
      [{ transcript := "a", confidence := c, words := [] }] } }

/-- Witness for C7 on the fragment confidences [0.9, 0.8, 0.7] of the
spec's determinism scenario. -/
theorem confidence_fold_deterministic_witness :
    (receiverRun Option.none initReceiverState
        [c7_frame (9/10), c7_frame (4/5), c7_frame (7/10)]).map
        (fun p => (p.1.buffer_avg_confidence, p.1.num_buffer_utterances)) =
      some (specConfFold
          ([c7_frame (9/10), c7_frame (4/5), c7_frame (7/10)].map topConfidence),
        1 + ([c7_frame (9/10), c7_frame (4/5),
          c7_frame (7/10)] : List DeepgramResponse).length) :=
  confidence_fold_deterministic [c7_frame (9/10), c7_frame (4/5), c7_frame (7/10)]
    (by
      intro d hd
      simp only [List.mem_cons, List.not_mem_nil, or_false] at hd
      rcases hd with rfl | rfl | rfl <;>
        exact ⟨by simp [c7_frame], by simp [c7_frame, topTranscript, topAlt],
          by norm_num [c7_frame, topConfidence, topAlt], rfl, rfl⟩)

end Vocode
